import Mathlib

/-!
Verification of the mongo data-access layer (lib/mongo.js) of this repository.

We shallowly embed each exported operation as a pure Lean function from its
JavaScript inputs plus the behaviour of the external collaborators (the
connection source and the simulated document store) to an `Outcome` record
collecting the observable effects of one call: how many connection handles
were acquired and released, which alarm records were forwarded to the alarm
sink, which requests were issued to the store, and the value the returned
promise settles with (`Except.ok` for resolution, `Except.error` for
rejection).
-/

/-- JavaScript-style values, used for documents, selectors, pipeline stages,
errors and every other dynamically typed argument of the library. `num`
carries an integer (no claim involves fractional values); the IEEE
not-a-number value gets its own constructor `nan` because `_.isNaN`
distinguishes it from every other value. -/
inductive JVal where
  | undef
  | null
  | bool (b : Bool)
  | num (n : Int)
  | nan
  | str (s : String)
  | obj (fields : List (String × JVal))
  | arr (elems : List JVal)

/-- Own enumerable string-keyed entries of a value, as `_.extend` and
`Object` property enumeration see them: an object yields its fields, an
array its index/element pairs, every other value none. -/
def jsEntries : JVal → List (String × JVal)
  | .obj fs => fs
  | .arr xs => xs.enum.map (fun p => (toString p.1, p.2))
  | _ => []

/-- `_.keys`: own enumerable property names. Strings additionally enumerate
their character indices; primitives, `null` and `undefined` have none. -/
def jsKeys : JVal → List String
  | .str s => (List.range s.length).map toString
  | v => (jsEntries v).map Prod.fst

/-- `_.isObject`: true exactly for objects and arrays among our values
(functions are not representable here). -/
def jsIsObject : JVal → Bool
  | .obj _ => true
  | .arr _ => true
  | _ => false

/-- `_.isNaN`: true only for the not-a-number value. -/
def jsIsNaN : JVal → Bool
  | .nan => true
  | _ => false

/-- Whether a value is a (non-NaN) number, i.e. what the driver cursor
accepts for `skip`. -/
def jsIsNum : JVal → Bool
  | .num _ => true
  | _ => false

/-- First field of an association list with the given key. -/
def lookupStr : List (String × JVal) → String → Option JVal
  | [], _ => none
  | p :: rest, k => if p.1 = k then some p.2 else lookupStr rest k

/-- One JavaScript property assignment `target[k] = v` on an object seen as
an ordered field list: an existing key is updated in place, a new key is
appended. -/
def assignField (fs : List (String × JVal)) (k : String) (v : JVal) :
    List (String × JVal) :=
  if fs.any (fun p => p.1 = k) then
    fs.map (fun p => if p.1 = k then (k, v) else p)
  else fs ++ [(k, v)]

/-- `_.extend(target, source)`: assign every own enumerable entry of the
source onto the target, in order. -/
def jsExtend (fs : List (String × JVal)) (src : List (String × JVal)) :
    List (String × JVal) :=
  src.foldl (fun acc p => assignField acc p.1 p.2) fs

/-- `_.startsWith(s, dollar)`: whether the string begins with the dollar
character (a one-character prefix test). Written as a head-character test
so that concrete instances evaluate by `decide`. -/
def startsWithDollar (s : String) : Bool :=
  match s.data with
  | [] => false
  | ch :: _ => ch = '$'

/-- An alarm record forwarded to the external alarm sink
(`alarms.reportAlarm`): failing caller name, raw failure cause, and an
operation-specific context object. -/
structure Alarm where
  caller : String
  what : JVal
  info : JVal

/-- A request issued to the external store through the driver interface.
Each constructor mirrors one driver call chain appearing in the source. -/
inductive StoreOp where
  | insert (cName : String) (dataObject : JVal)
  | insertMany (cName : String) (dataObjects : JVal)
  | updateOne (cName : String) (selector updated : JVal)
  | upsertOne (cName : String) (selector updated : JVal)
  | update (cName : String) (selector doc : JVal)
  | find (cName : String) (selector sorter : JVal)
  | findSkipLimit (cName : String) (selector sorter skip limit : JVal)
  | deleteOp (cName : String) (selector : JVal)
  | count (cName : String) (selector : JVal)
  | aggregateOp (cName : String) (pipeline : JVal)
  | saveOp (cName : String) (doc : JVal)
  | ensureIndex (cName : String) (index opt : JVal)
  | distinctOp (cName : String) (field query : JVal)

/-- The observable outcome of one library call: connection handles acquired
and released, alarm records forwarded, store requests issued, and the
settled value of the returned promise (`.ok` = resolved, `.error` =
rejected). -/
structure Outcome where
  acquisitions : Nat
  releases : Nat
  alarms : List Alarm
  ops : List StoreOp
  result : Except JVal JVal

/-- `Promise.using(dbConnection(), fn)`: if acquisition fails the error
propagates and `fn` never runs (no release needed, nothing acquired); if it
succeeds, `fn` runs and the handle is released on every outcome before the
call settles. `body` is the outcome of `fn` run against the live handle. -/
def usingConnection (conn : Except JVal Unit) (body : Outcome) : Outcome :=
  match conn with
  | .error e => ⟨0, 0, [], [], .error e⟩
  | .ok _ => { body with
      acquisitions := body.acquisitions + 1,
      releases := body.releases + 1 }

/-- The precondition error thrown by `remove` on a keyless selector. The
source message is a short refusal to delete with an empty selector. -/
def removeEmptySelectorError : JVal :=
  .str "Nope, you cannot delete an empty selector"

/-- The precondition error thrown by `countByDay` when the time variable
does not start with a dollar sign (source message: developer please,
mongoVar wants a dollar sign). -/
def mongoVarPreconditionError : JVal :=
  .str "developer please: mongoVar wants a dollar sign"

/-- `writeOne(cName, dataObject)`: insert, echo the document on success. -/
def writeOne (cName : String) (dataObject : JVal) (conn : Except JVal Unit)
    (store : Except JVal JVal) : Outcome :=
  usingConnection conn
    ⟨0, 0, [], [.insert cName dataObject],
      match store with
      | .ok _ => .ok dataObject
      | .error e => .error e⟩

/-- `updateOne(cName, selector, updated)`: update, echo `updated`. -/
def updateOne (cName : String) (selector updated : JVal)
    (conn : Except JVal Unit) (store : Except JVal JVal) : Outcome :=
  usingConnection conn
    ⟨0, 0, [], [.updateOne cName selector updated],
      match store with
      | .ok _ => .ok updated
      | .error e => .error e⟩

/-- `upsertOne(cName, selector, updated)`: update with upsert, echo
`updated`. -/
def upsertOne (cName : String) (selector updated : JVal)
    (conn : Except JVal Unit) (store : Except JVal JVal) : Outcome :=
  usingConnection conn
    ⟨0, 0, [], [.upsertOne cName selector updated],
      match store with
      | .ok _ => .ok updated
      | .error e => .error e⟩

/-- `writeMany(cName, dataObjects)`: insertMany, settle with the driver
acknowledgement. -/
def writeMany (cName : String) (dataObjects : JVal) (conn : Except JVal Unit)
    (store : Except JVal JVal) : Outcome :=
  usingConnection conn ⟨0, 0, [], [.insertMany cName dataObjects], store⟩

/-- `read(cName, selector, sorter)`: find + sort + toArray; an undefined
sorter defaults to the empty object. Errors propagate. -/
def read (cName : String) (selector sorter : JVal) (conn : Except JVal Unit)
    (store : Except JVal JVal) : Outcome :=
  let sorter := match sorter with | .undef => .obj [] | s => s
  usingConnection conn ⟨0, 0, [], [.find cName selector sorter], store⟩

/-- `remove(cName, selector)`: throws a precondition error when the
selector has no enumerable keys, before any connection or store
interaction; otherwise issues the delete. -/
def remove (cName : String) (selector : JVal) (conn : Except JVal Unit)
    (store : Except JVal JVal) : Outcome :=
  if (jsKeys selector).length = 0 then
    ⟨0, 0, [], [], .error removeEmptySelectorError⟩
  else
    usingConnection conn ⟨0, 0, [], [.deleteOp cName selector], store⟩

/-- Simulated store for the find/sort/skip/limit chain of `readLimit`:
`sortedDocs` is the selector-matched, sorter-sorted document list held by
the store. Per the driver contract the cursor accepts only a number for
`skip` (non-negative) and for `limit`; otherwise the chain rejects. On
success it yields up to `limit` documents after skipping `skip` of them. -/
def cursorRead (sortedDocs : List JVal) (skipv limitv : JVal) :
    Except JVal (List JVal) :=
  match skipv, limitv with
  | .num n, .num m =>
      if n < 0 then .error (.str "skip requires a non-negative number")
      else .ok ((sortedDocs.drop n.toNat).take m.toNat)
  | .num _, _ => .error (.str "limit requires an integer")
  | _, _ => .error (.str "skip requires an integer")

/-- `readLimit(cName, selector, sorter, limitN, past)`: defaults `past` to
`0` only when it is the not-a-number value, then runs the limited read.
The catch sits outside the connection scope: any rejection (including an
acquisition failure) is reported as an alarm and degraded to an empty
array. -/
def readLimit (cName : String) (selector sorter limitN past : JVal)
    (conn : Except JVal Unit) (sortedDocs : List JVal) : Outcome :=
  let past := match past with | .nan => .num 0 | p => p
  let inner := usingConnection conn
    ⟨0, 0, [], [.findSkipLimit cName selector sorter past limitN],
      match cursorRead sortedDocs past limitN with
      | .ok docs => .ok (.arr docs)
      | .error e => .error e⟩
  match inner.result with
  | .ok v => { inner with result := .ok v }
  | .error e =>
      { inner with
        alarms := inner.alarms ++ [⟨"readLimit", e,
          .obj [("selector", selector), ("limit", limitN),
                ("sorter", sorter)]⟩],
        result := .ok (.arr []) }

/-- `countByMatch(cName, selector)`: find + count; errors propagate. -/
def countByMatch (cName : String) (selector : JVal) (conn : Except JVal Unit)
    (store : Except JVal JVal) : Outcome :=
  usingConnection conn ⟨0, 0, [], [.count cName selector], store⟩

/-- `aggregate(cName, match, group)`: two-stage match + group pipeline;
errors propagate. -/
def aggregate (cName : String) (matchStage groupStage : JVal)
    (conn : Except JVal Unit) (store : Except JVal JVal) : Outcome :=
  usingConnection conn
    ⟨0, 0, [],
      [.aggregateOp cName (.arr [.obj [("$match", matchStage)],
                                 .obj [("$group", groupStage)]])],
      store⟩

/-- Group key built by `countByDay`: calendar year/month/day extracted from
the time variable, extended (JavaScript property assignment, later keys
overriding) with the entries of `aggext` exactly when `aggext` is an
object with at least one enumerable key. -/
def countByDayQueryId (timeVarName : String) (aggext : JVal) :
    List (String × JVal) :=
  let queryId := [("year", JVal.obj [("$year", JVal.str timeVarName)]),
                  ("month", JVal.obj [("$month", JVal.str timeVarName)]),
                  ("day", JVal.obj [("$dayOfMonth", JVal.str timeVarName)])]
  if jsIsObject aggext && (jsKeys aggext).length > 0 then
    jsExtend queryId (jsEntries aggext)
  else queryId

/-- The two-stage pipeline `countByDay` submits: match on the filter, then
group by the calendar key counting one per document. -/
def countByDayPipeline (timeVarName : String) (filter aggext : JVal) : JVal :=
  .arr [.obj [("$match", filter)],
        .obj [("$group",
          .obj [("_id", .obj (countByDayQueryId timeVarName aggext)),
                ("count", .obj [("$sum", .num 1)])])]]

/-- `countByDay(cName, timeVarName, filter, aggext)`: precondition check on
the dollar prefix before anything else; pipeline execution failures are
caught inside the connection scope, reported as one alarm carrying the
inputs, and degraded to an empty array. Acquisition failures propagate. -/
def countByDay (cName timeVarName : String) (filter aggext : JVal)
    (conn : Except JVal Unit) (store : Except JVal JVal) : Outcome :=
  if !startsWithDollar timeVarName then
    ⟨0, 0, [], [], .error mongoVarPreconditionError⟩
  else
    usingConnection conn
      ⟨0, 0,
        (match store with
         | .ok _ => []
         | .error e => [⟨"countByDay", e,
             .obj [("cName", .str cName),
                   ("timeVarName", .str timeVarName),
                   ("filter", filter),
                   ("aggext", aggext)]⟩]),
        [.aggregateOp cName (countByDayPipeline timeVarName filter aggext)],
        (match store with
         | .ok v => .ok v
         | .error _ => .ok (.arr []))⟩

/-- `countByObject(cName, idobj)`: defaults an undefined grouping object to
the empty object, then groups by it counting one per document and sorts by
count descending. Pipeline failures are caught inside the scope, reported
as one alarm carrying the (defaulted) inputs, and degraded to an empty
array. -/
def countByObject (cName : String) (idobj : JVal) (conn : Except JVal Unit)
    (store : Except JVal JVal) : Outcome :=
  let idobj := match idobj with | .undef => .obj [] | v => v
  usingConnection conn
    ⟨0, 0,
      (match store with
       | .ok _ => []
       | .error e => [⟨"countByObject", e,
           .obj [("cName", .str cName), ("idobj", idobj)]⟩]),
      [.aggregateOp cName (.arr
        [.obj [("$group", .obj [("_id", idobj),
                                ("count", .obj [("$sum", .num 1)])])],
         .obj [("$sort", .obj [("count", .num (-1))])]])],
      (match store with
       | .ok v => .ok v
       | .error _ => .ok (.arr []))⟩

/-- JavaScript property read `e[idkey]` as `updateMany` performs it:
reading a property of `null` or `undefined` throws; on an object it is the
field value (or `undefined` when absent); on any other value it is
`undefined`. -/
def getIdProp (e : JVal) : Except JVal JVal :=
  match e with
  | .undef => .error (.str "TypeError: cannot read property id of undefined")
  | .null => .error (.str "TypeError: cannot read property id of null")
  | .obj fs => .ok ((lookupStr fs "id").getD .undef)
  | _ => (.ok .undef)

/-- The validation scan at the head of `updateMany`: walk the whole batch
and throw at the first element whose id property is undefined (or whose
property read itself throws), before any write. -/
def checkIds : List JVal → Except JVal Unit
  | [] => .ok ()
  | e :: rest =>
    match getIdProp e with
    | .error err => .error err
    | .ok .undef => .error (.str "we need id in every element")
    | .ok _ => checkIds rest

/-- The id value of a validated element, used as the update selector. -/
def idVal (e : JVal) : JVal :=
  match e with
  | .obj fs => (lookupStr fs "id").getD .undef
  | _ => (.undef)

/-- Partial outcome of the sequential write phase of `updateMany`. -/
structure LoopOut where
  acq : Nat
  rel : Nat
  ops : List StoreOp
  res : Except JVal Unit

/-- `Promise.each` over the batch: element `i` opens its own connection
scope and issues one update with selector on its id; the first rejection
(acquisition or write) aborts the remaining elements, with no rollback of
already applied writes. -/
def updateManyLoop (cName : String) (conn : Nat → Except JVal Unit)
    (store : Nat → Except JVal JVal) : Nat → List JVal → LoopOut
  | _, [] => ⟨0, 0, [], .ok ()⟩
  | i, e :: rest =>
    match conn i with
    | .error er => ⟨0, 0, [], .error er⟩
    | .ok _ =>
      match store i with
      | .error er =>
          ⟨1, 1, [.update cName (.obj [("id", idVal e)]) e], .error er⟩
      | .ok _ =>
        let t := updateManyLoop cName conn store (i + 1) rest
        ⟨t.acq + 1, t.rel + 1,
          .update cName (.obj [("id", idVal e)]) e :: t.ops, t.res⟩

/-- `updateMany(cName, elist)`: validate the whole batch first, then apply
one update per element strictly sequentially; resolves with the input list
when every write succeeds. -/
def updateMany (cName : String) (elist : List JVal)
    (conn : Nat → Except JVal Unit) (store : Nat → Except JVal JVal) :
    Outcome :=
  match checkIds elist with
  | .error err => ⟨0, 0, [], [], .error err⟩
  | .ok _ =>
    let t := updateManyLoop cName conn store 0 elist
    ⟨t.acq, t.rel, [], t.ops,
      match t.res with
      | .ok _ => .ok (.arr elist)
      | .error er => .error er⟩

/-- `lookup(cName, query, sequence)`: runs the caller-supplied two-stage
pipeline verbatim; pipeline failures are caught inside the scope, reported
as one alarm carrying the inputs, and degraded to an empty array. -/
def lookup (cName : String) (query sequence : JVal) (conn : Except JVal Unit)
    (store : Except JVal JVal) : Outcome :=
  usingConnection conn
    ⟨0, 0,
      (match store with
       | .ok _ => []
       | .error e => [⟨"lookup", e,
           .obj [("cName", .str cName), ("query", query),
                 ("sequence", sequence)]⟩]),
      [.aggregateOp cName (.arr [query, sequence])],
      (match store with
       | .ok v => .ok v
       | .error _ => .ok (.arr []))⟩

/-- `save(cName, doc)`: driver save; errors propagate. -/
def save (cName : String) (doc : JVal) (conn : Except JVal Unit)
    (store : Except JVal JVal) : Outcome :=
  usingConnection conn ⟨0, 0, [], [.saveOp cName doc], store⟩

/-- `createIndex(cName, index, opt)`: ensureIndex; errors propagate. -/
def createIndex (cName : String) (index opt : JVal) (conn : Except JVal Unit)
    (store : Except JVal JVal) : Outcome :=
  usingConnection conn ⟨0, 0, [], [.ensureIndex cName index opt], store⟩

/-- `distinct(cName, field, query)`: distinct values; errors propagate. -/
def distinct (cName : String) (field query : JVal) (conn : Except JVal Unit)
    (store : Except JVal JVal) : Outcome :=
  usingConnection conn ⟨0, 0, [], [.distinctOp cName field query], store⟩

/-- Whether a batch element passes the id validation of `updateMany`. -/
def hasId (e : JVal) : Bool :=
  match getIdProp e with
  | .error _ => false
  | .ok .undef => false
  | .ok _ => true

/-- Whether a store response is a resolution. -/
def isOkB : Except JVal JVal → Bool
  | .ok _ => true
  | .error _ => false

theorem usingConnection_rel_acq (conn : Except JVal Unit) (body : Outcome)
    (h : body.releases = body.acquisitions) :
    (usingConnection conn body).releases =
      (usingConnection conn body).acquisitions := by
  cases conn <;> simp [usingConnection, h]

/-- C3: for every collection name, `remove` invoked with the empty selector
fails with the precondition error before any store interaction (no handle
acquired, no request issued), while with a non-empty selector under a live
connection it reaches the store, issues the delete, and settles with the
store response. -/
theorem remove_empty_vs_nonempty_selector (c : String)
    (fs : List (String × JVal)) (conn : Except JVal Unit)
    (store : Except JVal JVal) (h : fs ≠ []) :
    remove c (.obj []) conn store =
      ⟨0, 0, [], [], .error removeEmptySelectorError⟩ ∧
    (remove c (.obj fs) (.ok ()) store).ops = [.deleteOp c (.obj fs)] ∧
    (remove c (.obj fs) (.ok ()) store).acquisitions = 1 ∧
    (remove c (.obj fs) (.ok ()) store).result = store := by
  have hk : ¬((jsKeys (JVal.obj fs)).length = 0) := by
    simp [jsKeys, jsEntries, h]
  refine ⟨rfl, ?_, ?_, ?_⟩ <;>
    simp [remove, usingConnection, hk]

theorem remove_empty_vs_nonempty_selector_witness :
    remove "supporters" (.obj []) (.ok ()) (.ok (.num 1)) =
      ⟨0, 0, [], [], .error removeEmptySelectorError⟩ ∧
    (remove "supporters" (.obj [("publicKey", .str "k")]) (.ok ())
      (.ok (.num 1))).ops =
      [.deleteOp "supporters" (.obj [("publicKey", .str "k")])] ∧
    (remove "supporters" (.obj [("publicKey", .str "k")]) (.ok ())
      (.ok (.num 1))).acquisitions = 1 ∧
    (remove "supporters" (.obj [("publicKey", .str "k")]) (.ok ())
      (.ok (.num 1))).result = .ok (.num 1) :=
  remove_empty_vs_nonempty_selector "supporters" [("publicKey", .str "k")]
    (.ok ()) (.ok (.num 1)) (by simp)

/-- C10: `remove` rejects with its precondition error every selector with
zero enumerable keys — the empty object, but also an absent (undefined) or
null selector — before any handle is acquired and with no store request
issued. -/
theorem remove_rejects_keyless_selectors (c : String) (selector : JVal)
    (conn : Except JVal Unit) (store : Except JVal JVal)
    (h : jsKeys selector = []) :
    remove c selector conn store =
      ⟨0, 0, [], [], .error removeEmptySelectorError⟩ := by
  simp [remove, h]

theorem remove_rejects_keyless_selectors_witness :
    remove "c" .undef (.ok ()) (.ok (.num 0)) =
      ⟨0, 0, [], [], .error removeEmptySelectorError⟩ ∧
    remove "c" .null (.ok ()) (.ok (.num 0)) =
      ⟨0, 0, [], [], .error removeEmptySelectorError⟩ ∧
    remove "c" (.obj []) (.error (.str "down")) (.ok (.num 0)) =
      ⟨0, 0, [], [], .error removeEmptySelectorError⟩ :=
  ⟨remove_rejects_keyless_selectors "c" .undef (.ok ()) (.ok (.num 0)) rfl,
   remove_rejects_keyless_selectors "c" .null (.ok ()) (.ok (.num 0)) rfl,
   remove_rejects_keyless_selectors "c" (.obj []) (.error (.str "down"))
     (.ok (.num 0)) rfl⟩

/-- C4: `countByDay` with a time variable not starting with the field
reference marker fails immediately with the precondition error, acquiring
nothing and issuing nothing; with the marker present, the precondition
error branch is unreachable (under a live connection the call never
rejects with it). -/
theorem countByDay_dollar_precondition (c tv : String) (filter aggext : JVal)
    (conn : Except JVal Unit) (store : Except JVal JVal) :
    (startsWithDollar tv = false →
      countByDay c tv filter aggext conn store =
        ⟨0, 0, [], [], .error mongoVarPreconditionError⟩) ∧
    (startsWithDollar tv = true →
      (countByDay c tv filter aggext (.ok ()) store).result ≠
        .error mongoVarPreconditionError) := by
  constructor
  · intro h; simp [countByDay, h]
  · intro h
    cases store <;> simp [countByDay, h, usingConnection]

theorem countByDay_dollar_precondition_witness :
    countByDay "stats" "savingTime" (.obj []) .undef (.ok ())
      (.ok (.arr [])) = ⟨0, 0, [], [], .error mongoVarPreconditionError⟩ ∧
    (countByDay "stats" "$savingTime" (.obj []) .undef (.ok ())
      (.ok (.arr []))).result ≠ .error mongoVarPreconditionError :=
  ⟨(countByDay_dollar_precondition "stats" "savingTime" (.obj []) .undef
      (.ok ()) (.ok (.arr []))).1 (by decide),
   (countByDay_dollar_precondition "stats" "$savingTime" (.obj []) .undef
      (.ok ()) (.ok (.arr []))).2 (by decide)⟩

/-- C9: `countByMatch` and `aggregate` never report an alarm record, and
when the store rejects they propagate the original error unmodified to the
caller. -/
theorem countByMatch_aggregate_propagate (c : String)
    (selector matchStage groupStage err : JVal)
    (conn : Except JVal Unit) (store : Except JVal JVal) :
    (countByMatch c selector conn store).alarms = [] ∧
    (aggregate c matchStage groupStage conn store).alarms = [] ∧
    (countByMatch c selector (.ok ()) (.error err)).result = .error err ∧
    (aggregate c matchStage groupStage (.ok ()) (.error err)).result =
      .error err := by
  refine ⟨?_, ?_, rfl, rfl⟩ <;> cases conn <;> rfl

/-- C7: `countByObject` executes exactly the group-then-sort-descending
pipeline on the caller grouping object, which defaults to the empty object
when the argument is omitted (undefined). -/
theorem countByObject_pipeline (c : String) (idobj : JVal)
    (store : Except JVal JVal) :
    (countByObject c idobj (.ok ()) store).ops =
      [.aggregateOp c (.arr
        [.obj [("$group",
           .obj [("_id", match idobj with | .undef => .obj [] | v => v),
                 ("count", .obj [("$sum", .num 1)])])],
         .obj [("$sort", .obj [("count", .num (-1))])]])] ∧
    (countByObject c .undef (.ok ()) store).ops =
      [.aggregateOp c (.arr
        [.obj [("$group", .obj [("_id", .obj []),
                                ("count", .obj [("$sum", .num 1)])])],
         .obj [("$sort", .obj [("count", .num (-1))])]])] := by
  constructor
  · cases store <;> cases idobj <;> rfl
  · cases store <;> rfl

/-- C1 (amended): when pipeline execution fails, `countByDay`,
`countByObject` and `lookup` each report exactly one alarm record whose
caller is the operation name and whose info carries the operation inputs —
`countByObject` reporting the grouping object after its defaulting — and
each resolves with an empty array, never rejecting with the execution
failure. -/
theorem aggregation_failures_contained (c tv : String)
    (filter aggext idobj query sequence err : JVal)
    (h : startsWithDollar tv = true) :
    (countByDay c tv filter aggext (.ok ()) (.error err)).alarms =
      [⟨"countByDay", err,
        .obj [("cName", .str c), ("timeVarName", .str tv),
              ("filter", filter), ("aggext", aggext)]⟩] ∧
    (countByDay c tv filter aggext (.ok ()) (.error err)).result =
      .ok (.arr []) ∧
    (countByObject c idobj (.ok ()) (.error err)).alarms =
      [⟨"countByObject", err,
        .obj [("cName", .str c),
              ("idobj", match idobj with | .undef => .obj [] | v => v)]⟩] ∧
    (countByObject c idobj (.ok ()) (.error err)).result = .ok (.arr []) ∧
    (lookup c query sequence (.ok ()) (.error err)).alarms =
      [⟨"lookup", err,
        .obj [("cName", .str c), ("query", query),
              ("sequence", sequence)]⟩] ∧
    (lookup c query sequence (.ok ()) (.error err)).result = .ok (.arr []) := by
  refine ⟨?_, ?_, ?_, ?_, rfl, rfl⟩
  · simp [countByDay, h, usingConnection]
  · simp [countByDay, h, usingConnection]
  · cases idobj <;> rfl
  · cases idobj <;> rfl

theorem aggregation_failures_contained_witness :
    (countByDay "stats" "$savingTime" (.obj []) .undef (.ok ())
      (.error (.str "boom"))).alarms =
      [⟨"countByDay", .str "boom",
        .obj [("cName", .str "stats"), ("timeVarName", .str "$savingTime"),
              ("filter", .obj []), ("aggext", .undef)]⟩] ∧
    (countByDay "stats" "$savingTime" (.obj []) .undef (.ok ())
      (.error (.str "boom"))).result = .ok (.arr []) ∧
    (countByObject "stats" (.obj [("u", .str "$userId")]) (.ok ())
      (.error (.str "boom"))).alarms =
      [⟨"countByObject", .str "boom",
        .obj [("cName", .str "stats"),
              ("idobj", .obj [("u", .str "$userId")])]⟩] ∧
    (countByObject "stats" (.obj [("u", .str "$userId")]) (.ok ())
      (.error (.str "boom"))).result = .ok (.arr []) ∧
    (lookup "stats" (.obj []) (.obj []) (.ok ())
      (.error (.str "boom"))).alarms =
      [⟨"lookup", .str "boom",
        .obj [("cName", .str "stats"), ("query", .obj []),
              ("sequence", .obj [])]⟩] ∧
    (lookup "stats" (.obj []) (.obj []) (.ok ())
      (.error (.str "boom"))).result = .ok (.arr []) :=
  aggregation_failures_contained "stats" "$savingTime" (.obj []) .undef
    (.obj [("u", .str "$userId")]) (.obj []) (.obj []) (.str "boom")
    (by decide)

/-- C1 counterexample: `countByObject` invoked with the grouping argument
omitted (undefined). On store failure the reported alarm carries the
defaulted empty grouping object, not the original undefined input, so the
alarm info is not the operation original inputs as the claim states. -/
theorem countByObject_alarm_not_original_input :
    (countByObject "c" .undef (.ok ()) (.error (.str "boom"))).alarms =
      [⟨"countByObject", .str "boom",
        .obj [("cName", .str "c"), ("idobj", .obj [])]⟩] ∧
    (countByObject "c" .undef (.ok ()) (.error (.str "boom"))).alarms ≠
      [⟨"countByObject", .str "boom",
        .obj [("cName", .str "c"), ("idobj", .undef)]⟩] := by
  refine ⟨rfl, ?_⟩
  simp [countByObject, usingConnection]

/-- C6: under the dollar precondition, `countByDay` executes exactly the
two-stage pipeline: match on the filter, then group by the
year/month/day calendar key counting one per document, with the key
extended by the extra grouping entries exactly when that argument is an
object with at least one entry and left unchanged otherwise. -/
theorem countByDay_pipeline_shape (c tv : String) (filter aggext : JVal)
    (store : Except JVal JVal) (h : startsWithDollar tv = true) :
    (jsIsObject aggext = true → jsEntries aggext ≠ [] →
      (countByDay c tv filter aggext (.ok ()) store).ops =
        [.aggregateOp c (.arr [.obj [("$match", filter)],
          .obj [("$group", .obj
            [("_id", .obj (jsExtend
               [("year", .obj [("$year", .str tv)]),
                ("month", .obj [("$month", .str tv)]),
                ("day", .obj [("$dayOfMonth", .str tv)])]
               (jsEntries aggext))),
             ("count", .obj [("$sum", .num 1)])])]])]) ∧
    (jsIsObject aggext = false ∨ jsEntries aggext = [] →
      (countByDay c tv filter aggext (.ok ()) store).ops =
        [.aggregateOp c (.arr [.obj [("$match", filter)],
          .obj [("$group", .obj
            [("_id", .obj
               [("year", .obj [("$year", .str tv)]),
                ("month", .obj [("$month", .str tv)]),
                ("day", .obj [("$dayOfMonth", .str tv)])]),
             ("count", .obj [("$sum", .num 1)])])]])]) := by
  constructor
  · intro h1 h2
    have hguard : (jsIsObject aggext && decide ((jsKeys aggext).length > 0)) =
        true := by
      cases aggext <;> simp_all [jsIsObject, jsKeys, jsEntries, List.length_pos]
    simp [countByDay, h, usingConnection, countByDayPipeline,
      countByDayQueryId, hguard]
  · intro h1
    have hguard : (jsIsObject aggext && decide ((jsKeys aggext).length > 0)) =
        false := by
      rcases h1 with h1 | h1
      · simp [h1]
      · cases aggext <;> simp_all [jsIsObject, jsKeys, jsEntries]
    simp [countByDay, h, usingConnection, countByDayPipeline,
      countByDayQueryId, hguard]

theorem countByDay_pipeline_shape_witness :
    (countByDay "stats" "$savingTime" (.obj [])
      (.obj [("user", .str "$userId")]) (.ok ()) (.ok (.arr []))).ops =
      [.aggregateOp "stats" (.arr [.obj [("$match", .obj [])],
        .obj [("$group", .obj
          [("_id", .obj (jsExtend
             [("year", .obj [("$year", .str "$savingTime")]),
              ("month", .obj [("$month", .str "$savingTime")]),
              ("day", .obj [("$dayOfMonth", .str "$savingTime")])]
             (jsEntries (.obj [("user", .str "$userId")])))),
           ("count", .obj [("$sum", .num 1)])])]])] ∧
    (countByDay "stats" "$savingTime" (.obj []) .undef (.ok ())
      (.ok (.arr []))).ops =
      [.aggregateOp "stats" (.arr [.obj [("$match", .obj [])],
        .obj [("$group", .obj
          [("_id", .obj
             [("year", .obj [("$year", .str "$savingTime")]),
              ("month", .obj [("$month", .str "$savingTime")]),
              ("day", .obj [("$dayOfMonth", .str "$savingTime")])]),
           ("count", .obj [("$sum", .num 1)])])]])] :=
  ⟨(countByDay_pipeline_shape "stats" "$savingTime" (.obj [])
      (.obj [("user", .str "$userId")]) (.ok (.arr [])) (by decide)).1
      rfl (by simp [jsEntries]),
   (countByDay_pipeline_shape "stats" "$savingTime" (.obj []) .undef
      (.ok (.arr [])) (by decide)).2 (Or.inl rfl)⟩

/-- C5 (amended): `readLimit` defaults only the not-a-number skip value to
zero; a numeric non-negative skip n yields exactly the documents remaining
after dropping n of them from the sorted match list, at most limit many;
any other non-numeric skip value is passed to the store unchanged, where
the cursor rejects it and `readLimit` contains the failure as one alarm
and an empty array. -/
theorem readLimit_skip_semantics (c : String) (selector sorter past : JVal)
    (m : Int) (n : Nat) (docs : List JVal)
    (hnum : jsIsNum past = false) (hnan : jsIsNaN past = false) :
    (∀ limitN conn,
      readLimit c selector sorter limitN .nan conn docs =
        readLimit c selector sorter limitN (.num 0) conn docs) ∧
    (readLimit c selector sorter (.num m) (.num n) (.ok ()) docs).result =
      .ok (.arr ((docs.drop n).take m.toNat)) ∧
    ((docs.drop n).take m.toNat).length ≤ m.toNat ∧
    (readLimit c selector sorter (.num m) past (.ok ()) docs).ops =
      [.findSkipLimit c selector sorter past (.num m)] ∧
    (readLimit c selector sorter (.num m) past (.ok ()) docs).result =
      .ok (.arr []) ∧
    (readLimit c selector sorter (.num m) past (.ok ()) docs).alarms.length =
      1 := by
  refine ⟨fun limitN conn => rfl, ?_, ?_, ?_, ?_, ?_⟩
  · have hnn : ¬((n : Int) < 0) := by omega
    simp [readLimit, cursorRead, usingConnection, hnn]
  · exact List.length_take_le _ _
  all_goals cases past <;>
    simp_all [readLimit, cursorRead, usingConnection, jsIsNum, jsIsNaN]

theorem readLimit_skip_semantics_witness :
    jsIsNum JVal.undef = false ∧ jsIsNaN JVal.undef = false ∧
    ((∀ limitN conn,
      readLimit "videos" (.obj []) (.obj []) limitN .nan conn [.num 7] =
        readLimit "videos" (.obj []) (.obj []) limitN (.num 0) conn
          [.num 7]) ∧
    (readLimit "videos" (.obj []) (.obj []) (.num 5) (.num 0) (.ok ())
      [.num 7]).result = .ok (.arr (([JVal.num 7].drop 0).take (5 : Int).toNat)) ∧
    (([JVal.num 7].drop 0).take (5 : Int).toNat).length ≤ (5 : Int).toNat ∧
    (readLimit "videos" (.obj []) (.obj []) (.num 5) .undef (.ok ())
      [.num 7]).ops =
      [.findSkipLimit "videos" (.obj []) (.obj []) .undef (.num 5)] ∧
    (readLimit "videos" (.obj []) (.obj []) (.num 5) .undef (.ok ())
      [.num 7]).result = .ok (.arr []) ∧
    (readLimit "videos" (.obj []) (.obj []) (.num 5) .undef (.ok ())
      [.num 7]).alarms.length = 1) :=
  ⟨rfl, rfl,
   readLimit_skip_semantics "videos" (.obj []) (.obj []) .undef 5 0
     [.num 7] rfl rfl⟩

/-- C5 counterexample: a skip argument that is not a number but also not
the not-a-number value — here `undefined` — does not behave as skip zero:
with one stored document and limit ten, skip `undefined` degrades to an
empty array (after a contained cursor error) while skip zero returns the
document. -/
theorem readLimit_nonnumber_skip_cex :
    (readLimit "c" (.obj []) (.obj []) (.num 10) .undef (.ok ())
      [.num 7]).result = .ok (.arr []) ∧
    (readLimit "c" (.obj []) (.obj []) (.num 10) (.num 0) (.ok ())
      [.num 7]).result = .ok (.arr [.num 7]) ∧
    (readLimit "c" (.obj []) (.obj []) (.num 10) .undef (.ok ())
      [.num 7]).result ≠
      (readLimit "c" (.obj []) (.obj []) (.num 10) (.num 0) (.ok ())
        [.num 7]).result := by
  refine ⟨rfl, rfl, ?_⟩
  have h1 : (readLimit "c" (.obj []) (.obj []) (.num 10) .undef (.ok ())
      [.num 7]).result = .ok (.arr []) := rfl
  have h2 : (readLimit "c" (.obj []) (.obj []) (.num 10) (.num 0) (.ok ())
      [.num 7]).result = .ok (.arr [.num 7]) := rfl
  rw [h1, h2]
  simp

theorem readLimit_rel_acq (c : String) (selector sorter limitN past : JVal)
    (conn : Except JVal Unit) (docs : List JVal) :
    (readLimit c selector sorter limitN past conn docs).releases =
      (readLimit c selector sorter limitN past conn docs).acquisitions := by
  unfold readLimit
  cases conn
  · rfl
  · simp only [usingConnection]
    split
    · rfl
    · rfl

theorem updateManyLoop_rel_acq (c : String) (conn : Nat → Except JVal Unit)
    (store : Nat → Except JVal JVal) (l : List JVal) :
    ∀ i, (updateManyLoop c conn store i l).rel =
      (updateManyLoop c conn store i l).acq := by
  induction l with
  | nil => intro i; rfl
  | cons e rest ih =>
    intro i
    simp only [updateManyLoop]
    cases hc : conn i with
    | error er => rfl
    | ok u =>
      cases hs : store i with
      | error er => rfl
      | ok v => simp [ih]

/-- C2: every public operation releases the connection handle exactly as
many times as it acquires one, on every outcome — success, propagated
error, degraded error, or precondition failure (where nothing is acquired
and nothing released) — for every mix of connection and store
behaviours. -/
theorem connection_release_balanced (c tv : String)
    (v1 v2 v3 vp : JVal) (elist : List JVal) (docs : List JVal)
    (conn : Except JVal Unit) (connN : Nat → Except JVal Unit)
    (store : Except JVal JVal) (storeN : Nat → Except JVal JVal) :
    (writeOne c v1 conn store).releases =
      (writeOne c v1 conn store).acquisitions ∧
    (updateOne c v1 v2 conn store).releases =
      (updateOne c v1 v2 conn store).acquisitions ∧
    (upsertOne c v1 v2 conn store).releases =
      (upsertOne c v1 v2 conn store).acquisitions ∧
    (writeMany c v1 conn store).releases =
      (writeMany c v1 conn store).acquisitions ∧
    (read c v1 v2 conn store).releases =
      (read c v1 v2 conn store).acquisitions ∧
    (remove c v1 conn store).releases =
      (remove c v1 conn store).acquisitions ∧
    (readLimit c v1 v2 v3 vp conn docs).releases =
      (readLimit c v1 v2 v3 vp conn docs).acquisitions ∧
    (countByMatch c v1 conn store).releases =
      (countByMatch c v1 conn store).acquisitions ∧
    (aggregate c v1 v2 conn store).releases =
      (aggregate c v1 v2 conn store).acquisitions ∧
    (countByDay c tv v1 v2 conn store).releases =
      (countByDay c tv v1 v2 conn store).acquisitions ∧
    (countByObject c v1 conn store).releases =
      (countByObject c v1 conn store).acquisitions ∧
    (updateMany c elist connN storeN).releases =
      (updateMany c elist connN storeN).acquisitions ∧
    (lookup c v1 v2 conn store).releases =
      (lookup c v1 v2 conn store).acquisitions ∧
    (save c v1 conn store).releases =
      (save c v1 conn store).acquisitions ∧
    (createIndex c v1 v2 conn store).releases =
      (createIndex c v1 v2 conn store).acquisitions ∧
    (distinct c v1 v2 conn store).releases =
      (distinct c v1 v2 conn store).acquisitions := by
  refine ⟨usingConnection_rel_acq conn _ rfl,
          usingConnection_rel_acq conn _ rfl,
          usingConnection_rel_acq conn _ rfl,
          usingConnection_rel_acq conn _ rfl,
          usingConnection_rel_acq conn _ rfl,
          ?_,
          readLimit_rel_acq c v1 v2 v3 vp conn docs,
          usingConnection_rel_acq conn _ rfl,
          usingConnection_rel_acq conn _ rfl,
          ?_,
          usingConnection_rel_acq conn _ rfl,
          ?_,
          usingConnection_rel_acq conn _ rfl,
          usingConnection_rel_acq conn _ rfl,
          usingConnection_rel_acq conn _ rfl,
          usingConnection_rel_acq conn _ rfl⟩
  · unfold remove
    split
    · rfl
    · exact usingConnection_rel_acq conn _ rfl
  · unfold countByDay
    split
    · rfl
    · exact usingConnection_rel_acq conn _ rfl
  · unfold updateMany
    split
    · rfl
    · simp [updateManyLoop_rel_acq]

/-- The validation scan succeeds exactly when every element of the batch
carries a usable id. -/
theorem checkIds_ok_iff (l : List JVal) :
    checkIds l = .ok () ↔ ∀ e ∈ l, hasId e = true := by
  induction l with
  | nil => simp [checkIds]
  | cons e rest ih =>
    cases hg : getIdProp e with
    | error err => simp [checkIds, hasId, hg]
    | ok v => cases v <;> simp [checkIds, hasId, hg, ih]

theorem updateManyLoop_all_ok (c : String) (store : Nat → Except JVal JVal)
    (l : List JVal) :
    ∀ i, (∀ j, j < l.length → isOkB (store (i + j)) = true) →
      updateManyLoop c (fun _ => .ok ()) store i l =
        ⟨l.length, l.length,
         l.map (fun e => .update c (.obj [("id", idVal e)]) e), .ok ()⟩ := by
  induction l with
  | nil => intro i _; rfl
  | cons e rest ih =>
    intro i h
    have h0 : isOkB (store i) = true := by simpa using h 0 (by simp)
    simp only [updateManyLoop]
    cases hs : store i with
    | error er => rw [hs] at h0; simp [isOkB] at h0
    | ok v =>
      have hrest : ∀ j, j < rest.length → isOkB (store (i + 1 + j)) = true := by
        intro j hj
        have := h (j + 1) (by simpa using Nat.succ_lt_succ hj)
        rwa [show i + (j + 1) = i + 1 + j by omega] at this
      simp [ih (i + 1) hrest]

theorem updateManyLoop_fail_at (c : String) (store : Nat → Except JVal JVal)
    (err : JVal) (l : List JVal) :
    ∀ i k, k < l.length → (∀ j, j < k → isOkB (store (i + j)) = true) →
      store (i + k) = .error err →
      updateManyLoop c (fun _ => .ok ()) store i l =
        ⟨k + 1, k + 1,
         (l.take (k + 1)).map (fun e => .update c (.obj [("id", idVal e)]) e),
         .error err⟩ := by
  induction l with
  | nil => intro i k hk _ _; simp at hk
  | cons e rest ih =>
    intro i k hk hpre hfail
    cases k with
    | zero =>
      have hs : store i = .error err := by simpa using hfail
      simp [updateManyLoop, hs]
    | succ k =>
      have h0 : isOkB (store i) = true := by
        simpa using hpre 0 (Nat.succ_pos k)
      simp only [updateManyLoop]
      cases hs : store i with
      | error er => rw [hs] at h0; simp [isOkB] at h0
      | ok v =>
        have hpre2 : ∀ j, j < k → isOkB (store (i + 1 + j)) = true := by
          intro j hj
          have := hpre (j + 1) (Nat.succ_lt_succ hj)
          rwa [show i + (j + 1) = i + 1 + j by omega] at this
        have hfail2 : store (i + 1 + k) = .error err := by
          rwa [show i + (k + 1) = i + 1 + k by omega] at hfail
        have hk2 : k < rest.length := by simpa using Nat.lt_of_succ_lt_succ hk
        simp [ih (i + 1) k hk2 hpre2 hfail2]

/-- C8: `updateMany` validates the entire batch before the first write and
fails fast — nothing acquired, no write issued — when any element lacks a
usable id; when validation passes it applies one update per element
strictly sequentially with the id as selector, resolving with the batch
when every write succeeds, and a failure on the write of element k aborts
the remainder after exactly the first k+1 updates were issued, with no
rollback of the k already applied ones. -/
theorem updateMany_batch_semantics (c : String) (elist : List JVal)
    (connN : Nat → Except JVal Unit) (storeN : Nat → Except JVal JVal)
    (err : JVal) (k : Nat) :
    ((∃ e ∈ elist, hasId e = false) →
      (updateMany c elist connN storeN).acquisitions = 0 ∧
      (updateMany c elist connN storeN).ops = [] ∧
      ∃ e2, (updateMany c elist connN storeN).result = .error e2) ∧
    ((∀ e ∈ elist, hasId e = true) →
      (∀ j, j < elist.length → isOkB (storeN j) = true) →
      updateMany c elist (fun _ => .ok ()) storeN =
        ⟨elist.length, elist.length, [],
         elist.map (fun e => .update c (.obj [("id", idVal e)]) e),
         .ok (.arr elist)⟩) ∧
    ((∀ e ∈ elist, hasId e = true) → k < elist.length →
      (∀ j, j < k → isOkB (storeN j) = true) → storeN k = .error err →
      updateMany c elist (fun _ => .ok ()) storeN =
        ⟨k + 1, k + 1, [],
         (elist.take (k + 1)).map
           (fun e => .update c (.obj [("id", idVal e)]) e),
         .error err⟩) := by
  refine ⟨?_, ?_, ?_⟩
  · rintro ⟨e, he, hbad⟩
    have hne : checkIds elist ≠ .ok () := by
      intro hok
      have := (checkIds_ok_iff elist).mp hok e he
      simp [hbad] at this
    cases hc : checkIds elist with
    | ok u => cases u; exact absurd hc hne
    | error er =>
      exact ⟨by simp [updateMany, hc], by simp [updateMany, hc],
             er, by simp [updateMany, hc]⟩
  · intro hval hok
    have hc : checkIds elist = .ok () := (checkIds_ok_iff elist).mpr hval
    have hl := updateManyLoop_all_ok c storeN elist 0
      (fun j hj => by simpa using hok j hj)
    simp [updateMany, hc, hl]
  · intro hval hk hpre hfail
    have hc : checkIds elist = .ok () := (checkIds_ok_iff elist).mpr hval
    have hl := updateManyLoop_fail_at c storeN err elist 0 k hk
      (fun j hj => by simpa using hpre j hj) (by simpa using hfail)
    simp [updateMany, hc, hl]

theorem updateMany_batch_semantics_witness :
    ((updateMany "supporters"
        [.obj [("id", .num 1)], .obj [], .obj [("id", .num 3)]]
        (fun _ => .ok ()) (fun _ => .ok (.num 1))).acquisitions = 0 ∧
      (updateMany "supporters"
        [.obj [("id", .num 1)], .obj [], .obj [("id", .num 3)]]
        (fun _ => .ok ()) (fun _ => .ok (.num 1))).ops = [] ∧
      ∃ e2, (updateMany "supporters"
        [.obj [("id", .num 1)], .obj [], .obj [("id", .num 3)]]
        (fun _ => .ok ()) (fun _ => .ok (.num 1))).result = .error e2) ∧
    updateMany "supporters" [.obj [("id", .num 1)], .obj [("id", .num 3)]]
      (fun _ => .ok ()) (fun _ => .ok (.num 1)) =
      ⟨2, 2, [],
       [.update "supporters" (.obj [("id", .num 1)])
          (.obj [("id", .num 1)]),
        .update "supporters" (.obj [("id", .num 3)])
          (.obj [("id", .num 3)])],
       .ok (.arr [.obj [("id", .num 1)], .obj [("id", .num 3)]])⟩ ∧
    updateMany "supporters" [.obj [("id", .num 1)], .obj [("id", .num 3)]]
      (fun _ => .ok ())
      (fun j => if j = 0 then .ok (.num 1) else .error (.str "w")) =
      ⟨2, 2, [],
       [.update "supporters" (.obj [("id", .num 1)])
          (.obj [("id", .num 1)]),
        .update "supporters" (.obj [("id", .num 3)])
          (.obj [("id", .num 3)])],
       .error (.str "w")⟩ := by
  refine ⟨(updateMany_batch_semantics "supporters"
      [.obj [("id", .num 1)], .obj [], .obj [("id", .num 3)]]
      (fun _ => .ok ()) (fun _ => .ok (.num 1)) (.str "w") 0).1
      ⟨.obj [], by simp, rfl⟩, ?_, ?_⟩
  · have h := (updateMany_batch_semantics "supporters"
      [.obj [("id", .num 1)], .obj [("id", .num 3)]]
      (fun _ => .ok ()) (fun _ => .ok (.num 1)) (.str "w") 0).2.1
      (by intro e he; simp at he; rcases he with rfl | rfl <;> rfl)
      (by intro j hj; rfl)
    simpa using h
  · have h := (updateMany_batch_semantics "supporters"
      [.obj [("id", .num 1)], .obj [("id", .num 3)]]
      (fun _ => .ok ())
      (fun j => if j = 0 then .ok (.num 1) else .error (.str "w"))
      (.str "w") 1).2.2
      (by intro e he; simp at he; rcases he with rfl | rfl <;> rfl)
      (by simp)
      (by intro j hj; have hj0 : j = 0 := by omega
          subst hj0; rfl)
      (by rfl)
    simpa using h
